import Mathlib

/-!
Shallow embedding of `app/services/orchestration_service.py`
(`IntelligentHybridOrchestrator`).

Python strings are modelled by Lean `String` (case mapping is the ASCII
mapping of `Char.toLower`/`Char.toUpper`, an approximation of Python's
Unicode case mapping that is exact on the ASCII inputs used below).
Python dicts used as sessions become a `Session` structure; the
`lead_data` dict becomes an insertion-ordered association list.
The external collaborators (AI backend, WhatsApp transport, stores) are
modelled as explicit parameters: the AI call outcome is an `AIOutcome`
value, the transport outcome a `Bool`, the loaded conversation flow a
`Flow` value, and persistence is explicit state passing (the returned
`Session` is the state last written through `save_user_session`).
-/

namespace Advocadia

/-- One step of the conversation flow: `{id: int, question: string}`. -/
structure FlowStep where
  id : Nat
  question : String
deriving Repr, DecidableEq

/-- A conversation flow as returned by `_get_firebase_flow`:
`steps` list plus an optional `completion_message` key. -/
structure Flow where
  steps : List FlowStep
  completion_message : Option String
deriving Repr, DecidableEq

/-- The session dict created by `_get_or_create_session` (lines 151-173).
Timestamp fields are omitted; they are never read by the logic modelled
here. -/
structure Session where
  session_id : String
  platform : String
  lead_data : List (String × String)
  message_count : Nat
  fallback_step : Option Nat
  phone_submitted : Bool
  gemini_available : Bool
  fallback_completed : Bool
  phone_number : Option String
  phone_formatted : Option String
  last_message : Option String
  last_response : Option String
deriving Repr, DecidableEq

/-- Python dict lookup `d.get(k)` on an insertion-ordered assoc list. -/
def ldLookup (k : String) : List (String × String) → Option String
  | [] => none
  | (k₁, v) :: rest => if k₁ = k then some v else ldLookup k rest

/-- Python dict assignment `d[k] = v`: update in place if present,
append otherwise. -/
def ldInsert (k v : String) : List (String × String) → List (String × String)
  | [] => [(k, v)]
  | (k₁, v₁) :: rest => if k₁ = k then (k₁, v) :: rest else (k₁, v₁) :: ldInsert k v rest

/-- `''.join(filter(str.isdigit, s))`. -/
def digitsOf (s : String) : String :=
  String.mk (s.toList.filter Char.isDigit)

/-- Python `str.lower()` (ASCII case mapping), defined structurally on
the character list so that it evaluates inside the kernel. -/
def pyLower (s : String) : String :=
  String.mk (s.toList.map Char.toLower)

/-- Python `str.strip()`: drop whitespace from both ends. -/
def pyStrip (s : String) : String :=
  String.mk (((s.toList.dropWhile Char.isWhitespace).reverse.dropWhile
    Char.isWhitespace).reverse)

/-- Python `str.startswith(pre)`. -/
def pyStartsWith (s pre : String) : Bool :=
  pre.toList.isPrefixOf s.toList

/-- Python slicing `s[:n]`. -/
def pyTake (s : String) (n : Nat) : String :=
  String.mk (s.toList.take n)

/-- Python slicing `s[n:]`. -/
def pyDrop (s : String) (n : Nat) : String :=
  String.mk (s.toList.drop n)

/-- Worker for `pySplit`; `cur` is the current word, reversed. -/
def pySplitAux : List Char → List Char → List String
  | [], cur => if cur.isEmpty then [] else [String.mk cur.reverse]
  | c :: rest, cur =>
    if c.isWhitespace then
      if cur.isEmpty then pySplitAux rest []
      else String.mk cur.reverse :: pySplitAux rest []
    else pySplitAux rest (c :: cur)

/-- Python `str.split()` with no separator: split on whitespace runs,
dropping empty pieces. -/
def pySplit (s : String) : List String :=
  pySplitAux s.toList []

/-- Is `needle` a prefix of `hay` (on char lists)? -/
def prefixOfList : List Char → List Char → Bool
  | [], _ => true
  | _ :: _, [] => false
  | a :: as, b :: bs => a = b && prefixOfList as bs

/-- Contiguous-substring search on char lists (Python `needle in hay`). -/
def charListContains (needle : List Char) : List Char → Bool
  | [] => prefixOfList needle []
  | c :: rest => prefixOfList needle (c :: rest) || charListContains needle rest

/-- Python substring test `needle in hay`. -/
def containsSub (needle hay : String) : Bool :=
  charListContains needle.toList hay.toList

/-- The quota indicator list of `_is_quota_error` (lines 177-180). -/
def quota_indicators : List String :=
  ["429", "quota", "rate limit", "exceeded", "ResourceExhausted",
   "billing", "plan", "free tier", "requests per day"]

/-- `_is_quota_error` (lines 175-181): any indicator occurs,
case-insensitively, as a substring of the error message. -/
def is_quota_error (error_message : String) : Bool :=
  quota_indicators.any (fun ind => containsSub (pyLower ind) (pyLower error_message))

/-- `_is_phone_number` (lines 183-186): 10 to 13 digits after stripping
non-digits. -/
def is_phone_number (message : String) : Bool :=
  let clean := digitsOf message
  decide (10 ≤ clean.length) && decide (clean.length ≤ 13)

/-- The `area_map` table of `_validate_and_normalize_answer` step 2
(lines 421-440), in source order (first match wins, as in the Python
`for` loop over the dict). -/
def area_map : List (String × String) :=
  [("penal", "Penal"), ("criminal", "Penal"), ("crime", "Penal"),
   ("civil", "Civil"), ("civel", "Civil"),
   ("trabalhista", "Trabalhista"), ("trabalho", "Trabalhista"),
   ("trabalhador", "Trabalhista"),
   ("família", "Família"), ("familia", "Família"),
   ("divórcio", "Família"), ("divorcio", "Família"),
   ("casamento", "Família"),
   ("empresarial", "Empresarial"), ("empresa", "Empresarial"),
   ("comercial", "Empresarial"), ("negócio", "Empresarial"),
   ("negocio", "Empresarial")]

/-- First entry of `area_map` whose keyword occurs in the lowercased
answer (lines 442-445). -/
def lookupAreaMatch (answer_lower : String) : List (String × String) → Option String
  | [] => none
  | (kw, norm) :: rest =>
    if containsSub kw answer_lower then some norm else lookupAreaMatch answer_lower rest

/-- Character-level worker for `titleCase` below; the flag records
whether the previous character was alphabetic. -/
def titleChars : List Char → Bool → List Char
  | [], _ => []
  | c :: rest, prevAlpha =>
    if c.isAlpha then
      (if prevAlpha then c.toLower else c.toUpper) :: titleChars rest true
    else
      c :: titleChars rest false

/-- Python `str.title()` (ASCII approximation): uppercase each letter
that follows a non-letter, lowercase the other letters. -/
def titleCase (s : String) : String :=
  String.mk (titleChars s.toList false)

/-- The yes-keywords of `_validate_and_normalize_answer` step 4 (line 457). -/
def yes_words : List String :=
  ["sim", "yes", "quero", "gostaria", "aceito", "ok", "pode", "claro"]

/-- The no-keywords of `_validate_and_normalize_answer` step 4 (line 459). -/
def no_words : List String :=
  ["não", "nao", "no", "nope", "não quero", "nao quero"]

/-- `_validate_and_normalize_answer` (lines 411-464). -/
def validate_and_normalize_answer (answer : String) (step_id : Nat) : String :=
  let answer := pyStrip answer
  if step_id = 1 then
    answer
  else if step_id = 2 then
    match lookupAreaMatch (pyLower answer) area_map with
    | some normalized => normalized
    | none => titleCase answer
  else if step_id = 3 then
    answer
  else if step_id = 4 then
    let answer_lower := pyLower answer
    if yes_words.any (fun w => containsSub w answer_lower) then "Sim"
    else if no_words.any (fun w => containsSub w answer_lower) then "Não"
    else answer
  else answer

/-- `_should_advance_step` (lines 466-492). -/
def should_advance_step (answer : String) (step_id : Nat) : Bool :=
  let answer := pyStrip answer
  if answer.length < 1 then false
  else if step_id = 1 then
    let words := pySplit answer
    decide (2 ≤ words.length) && words.all (fun w => decide (2 ≤ w.length))
  else if step_id = 2 then decide (3 ≤ answer.length)
  else if step_id = 3 then decide (5 ≤ answer.length)
  else if step_id = 4 then decide (1 ≤ answer.length)
  else decide (2 ≤ answer.length)

/-- A single straight apostrophe, written via its code point. -/
def sq : String := String.singleton (Char.ofNat 39)

/-- `_get_validation_message` (lines 401-409). -/
def get_validation_message (step_id : Nat) : String :=
  if step_id = 1 then "Por favor, informe seu nome completo (nome e sobrenome)."
  else if step_id = 2 then
    "Por favor, escolha uma das áreas: Penal, Civil, Trabalhista, Família ou Empresarial."
  else if step_id = 3 then
    "Por favor, descreva sua situação com mais detalhes (mínimo 3 caracteres)."
  else if step_id = 4 then
    "Por favor, responda com " ++ sq ++ "Sim" ++ sq ++ " ou " ++ sq ++ "Não" ++ sq ++ "."
  else "Por favor, forneça uma resposta válida."

/-- The hardcoded degraded-default question (lines 319, 336, 348, 399). -/
def hardcodedStep1Question : String := "Qual é o seu nome completo?"

/-- The fixed phone-request prompt emitted on flow completion (line 391). -/
def phoneRequestPrompt : String :=
  "Obrigado pelas informações! Para finalizar, preciso do seu número de WhatsApp com DDD (exemplo: 11999999999):"

/-- The default flow returned when the Firebase flow fails to load
(lines 290-298). -/
def default_flow : Flow :=
  { steps :=
      [ { id := 1, question := "Qual é o seu nome completo?" },
        { id := 2, question := "Em qual área do direito você precisa de ajuda?" },
        { id := 3, question := "Descreva brevemente sua situação." },
        { id := 4, question := "Gostaria de agendar uma consulta?" } ],
    completion_message := some "Obrigado! Suas informações foram registradas." }

/-- Stable insertion of a step into a list sorted by ascending id
(inserted after existing equal ids). -/
def insertByIdLe (x : FlowStep) : List FlowStep → List FlowStep
  | [] => [x]
  | y :: ys => if x.id < y.id then x :: y :: ys else y :: insertByIdLe x ys

/-- Python `sorted(steps, key=lambda x: x.get("id", 0))` (line 322):
stable sort by ascending id. -/
def sortStepsById (l : List FlowStep) : List FlowStep :=
  l.foldl (fun acc x => insertByIdLe x acc) []

/-- `next((s for s in steps if s["id"] == i), None)`. -/
def findStep (steps : List FlowStep) (i : Nat) : Option FlowStep :=
  steps.find? (fun st => decide (st.id = i))

/-- The `step_<n>` key used in `lead_data` (line 351). -/
def step_key (i : Nat) : String := "step_" ++ toString i

/-- Advancement slice of `_get_fallback_response` (lines 376-391):
`next_step_id = current_step_id + 1`; if a step with that exact id
exists, advance to it and return its question; otherwise mark the flow
completed and return the fixed phone-request prompt. -/
def advance_step (steps : List FlowStep) (current_step_id : Nat) (session : Session) :
    String × Session :=
  let next_step_id := current_step_id + 1
  match findStep steps next_step_id with
  | some next_step =>
    (next_step.question, { session with fallback_step := some next_step_id })
  | none =>
    (phoneRequestPrompt, { session with fallback_completed := true })

/-- Activation slice of `_get_fallback_response` (lines 324-336):
`fallback_step` is `None`, so set it to 1, reset `lead_data`, persist,
and return the question of the step with id 1 (or the hardcoded
default if the flow has no step with id 1). -/
def activate_fallback (steps : List FlowStep) (session : Session) : String × Session :=
  let session := { session with fallback_step := some 1, lead_data := [] }
  match findStep steps 1 with
  | some first_step => (first_step.question, session)
  | none => (hardcodedStep1Question, session)

/-- Error-recovery slice of `_get_fallback_response` (lines 342-348):
the current step id is not found in the flow, so reset to step 1. -/
def reset_to_first (steps : List FlowStep) (session : Session) : String × Session :=
  let session := { session with fallback_step := some 1 }
  match findStep steps 1 with
  | some first_step => (first_step.question, session)
  | none => (hardcodedStep1Question, session)

/-- Answer-processing slice of `_get_fallback_response` (lines 350-394),
reached once the current step has been found. Python guard at line 354
is `if message and message.strip():`, i.e. the trimmed message is
non-empty. -/
def handle_current_step (steps : List FlowStep) (current_step_id : Nat)
    (current_step : FlowStep) (session : Session) (message : String) :
    String × Session :=
  if pyStrip message ≠ "" then
    match ldLookup (step_key current_step_id) session.lead_data with
    | some _ =>
      advance_step steps current_step_id session
    | none =>
      let normalized := validate_and_normalize_answer message current_step_id
      if !(should_advance_step normalized current_step_id) then
        (get_validation_message current_step_id ++ "\n\n" ++ current_step.question, session)
      else
        advance_step steps current_step_id
          { session with
              lead_data := ldInsert (step_key current_step_id) normalized session.lead_data }
  else
    (current_step.question, session)

/-- `_get_fallback_response` (lines 300-399). The returned `Session` is
the working state, equal to the last state written through
`save_user_session` on each path that saves. -/
def get_fallback_response (flow : Flow) (session : Session) (message : String) :
    String × Session :=
  if flow.steps.isEmpty then
    (hardcodedStep1Question, session)
  else
    let steps := sortStepsById flow.steps
    match session.fallback_step with
    | none => activate_fallback steps session
    | some current_step_id =>
      match findStep steps current_step_id with
      | none => reset_to_first steps session
      | some current_step =>
        handle_current_step steps current_step_id current_step session message

/-- Outcome of the awaited AI-backend call inside
`_attempt_gemini_response`: a returned string, a timeout, or a raised
exception with its message. -/
inductive AIOutcome where
  | success (resp : String)
  | timeout
  | failure (err : String)
deriving Repr, DecidableEq

/-- `_mark_gemini_unavailable` (lines 262-272). -/
def mark_gemini_unavailable (session : Session) : Session :=
  { session with gemini_available := false }

/-- `_attempt_gemini_response` (lines 188-260). Returns the accepted AI
response (or `none`) together with the session state. Line 198 guards
on the per-session flag before any backend call; lines 227-241 validate
the response and contain the (unreachable) restore branch; lines
246-260 mark the session unavailable on timeout or exception. -/
def attempt_gemini_response (outcome : AIOutcome) (session : Session) :
    Option String × Session :=
  if !session.gemini_available then
    (none, session)
  else
    match outcome with
    | .success gemini_response =>
      if pyStrip gemini_response ≠ "" && !(is_quota_error gemini_response) then
        if !session.gemini_available then
          (some gemini_response, { session with gemini_available := true })
        else
          (some gemini_response, session)
      else
        (none, session)
    | .timeout => (none, mark_gemini_unavailable session)
    | .failure _ => (none, mark_gemini_unavailable session)

/-- The invalid-phone re-prompt of `_handle_phone_collection` (line 509). -/
def invalidPhoneMessage : String :=
  "Número inválido. Por favor, digite no formato com DDD (exemplo: 11999999999):"

/-- Formatting slice of `_handle_phone_collection` (lines 512-519),
applied to the digit string `phone_clean`. -/
def phone_formatted_of (phone_clean : String) : String :=
  if phone_clean.length = 10 then
    "55" ++ pyTake phone_clean 2 ++ "9" ++ pyDrop phone_clean 2
  else if phone_clean.length = 11 then
    "55" ++ phone_clean
  else if pyStartsWith phone_clean "55" then
    phone_clean
  else
    "55" ++ phone_clean

/-- Normalization slice of `_handle_phone_collection` (lines 504-519)
as a total function: strip non-digits, reject on a digit count outside
10-13, otherwise produce the formatted dialable handle. -/
def normalize_phone (phone_message : String) : Option String :=
  let phone_clean := digitsOf phone_message
  if phone_clean.length < 10 || 13 < phone_clean.length then none
  else some (phone_formatted_of phone_clean)

/-- Lead-record assembly of `_handle_phone_collection` (lines 535-551):
answers of steps in ascending id order when present and non-empty, then
the phone with id `len(steps) + 1`. -/
def build_answers (steps : List FlowStep) (lead_data : List (String × String))
    (phone_clean : String) : List (Nat × String) :=
  let base := (sortStepsById steps).filterMap fun st =>
    match ldLookup (step_key st.id) lead_data with
    | some answer => if answer ≠ "" then some (st.id, answer) else none
    | none => none
  if phone_clean ≠ "" then base ++ [(steps.length + 1, phone_clean)] else base

/-- The default completion message (lines 612-613), used when the flow
has no `completion_message` key. -/
def defaultCompletionMessage : String :=
  "Perfeito! Suas informações foram registradas com sucesso. Nossa equipe entrará em contato em breve."

/-- Final confirmation string of `_handle_phone_collection`
(lines 611-620): confirmed number, completion message, and the
dispatch-status notice chosen by the WhatsApp send outcome. -/
def final_phone_message (phone_clean completion : String) (whatsapp_success : Bool) :
    String :=
  "Número confirmado: " ++ phone_clean ++ " 📱\n\n" ++ completion ++ "\n\n" ++
    (if whatsapp_success then "✅ Mensagem enviada para seu WhatsApp!"
     else "⚠️ Houve um problema ao enviar a mensagem do WhatsApp, mas suas informações foram salvas.")

/-- `_handle_phone_collection` (lines 494-626). The WhatsApp dispatch
outcome is the `whatsapp_success` parameter; the lead-store write and
the outbound message texts have no effect on the session and are not
returned. The returned `Session` is the state saved at line 533. -/
def handle_phone_collection (flow : Flow) (whatsapp_success : Bool)
    (phone_message : String) (session : Session) : String × Session :=
  let phone_clean := digitsOf phone_message
  if phone_clean.length < 10 || 13 < phone_clean.length then
    (invalidPhoneMessage, session)
  else
    let phone_formatted := phone_formatted_of phone_clean
    let session :=
      { session with
          phone_number := some phone_clean,
          phone_formatted := some phone_formatted,
          phone_submitted := true,
          lead_data := ldInsert "phone" phone_clean session.lead_data }
    let completion := (flow.completion_message).getD defaultCompletionMessage
    (final_phone_message phone_clean completion whatsapp_success, session)

/-- `_get_or_create_session` (lines 151-173): use the stored session if
present, else the fresh default; then overwrite `phone_number` when the
argument is supplied. -/
def get_or_create_session (stored : Option Session) (session_id platform : String)
    (phone_number : Option String) : Session :=
  let base := stored.getD
    { session_id := session_id,
      platform := platform,
      lead_data := [],
      message_count := 0,
      fallback_step := none,
      phone_submitted := false,
      gemini_available := true,
      fallback_completed := false,
      phone_number := none,
      phone_formatted := none,
      last_message := none,
      last_response := none }
  match phone_number with
  | some p => { base with phone_number := some p }
  | none => base

/-- The per-turn result dict of `process_message`. Fields absent from a
given return path are `none` (the Python dict simply lacks the key). -/
structure TurnResult where
  response_type : String
  platform : String
  session_id : String
  response : String
  message_count : Option Nat
  phone_submitted : Option Bool
  ai_mode : Option Bool
  gemini_available : Option Bool
  fallback_step : Option (Option Nat)
  fallback_completed : Option Bool
  error : Option String
deriving Repr, DecidableEq

/-- `process_message` (lines 628-700), without the top-level exception
handler. Inputs: the loaded flow, the AI-call outcome, the WhatsApp
dispatch outcome, the message and routing arguments, the stored session
(if any) and the optional phone-number argument. Output: the returned
result dict and the session state as persisted at the end of the turn. -/
def process_message (flow : Flow) (ai : AIOutcome) (whatsapp_success : Bool)
    (message session_id platform : String) (stored : Option Session)
    (phone_number : Option String) : TurnResult × Session :=
  let session_data := get_or_create_session stored session_id platform phone_number
  if session_data.fallback_completed && !session_data.phone_submitted
      && is_phone_number message then
    let (phone_response, s₁) :=
      handle_phone_collection flow whatsapp_success message session_data
    ({ response_type := "phone_collected_fallback",
       platform := platform,
       session_id := session_id,
       response := phone_response,
       message_count := some (s₁.message_count + 1),
       phone_submitted := some true,
       ai_mode := none, gemini_available := none,
       fallback_step := none, fallback_completed := none, error := none }, s₁)
  else
    let (ai_response?, s₁) := attempt_gemini_response ai session_data
    match ai_response? with
    | some ai_response =>
      let s₂ := { s₁ with
                    last_message := some message,
                    last_response := some ai_response,
                    message_count := s₁.message_count + 1 }
      ({ response_type := "ai_intelligent",
         platform := platform,
         session_id := session_id,
         response := ai_response,
         message_count := some s₂.message_count,
         phone_submitted := none,
         ai_mode := some true, gemini_available := some true,
         fallback_step := none, fallback_completed := none, error := none }, s₂)
    | none =>
      let (fallback_response, s₂) := get_fallback_response flow s₁ message
      let s₃ := { s₂ with
                    last_message := some message,
                    last_response := some fallback_response,
                    message_count := s₂.message_count + 1 }
      ({ response_type := "fallback_firebase",
         platform := platform,
         session_id := session_id,
         response := fallback_response,
         message_count := some s₃.message_count,
         phone_submitted := none,
         ai_mode := some false, gemini_available := some false,
         fallback_step := some s₃.fallback_step,
         fallback_completed := some s₃.fallback_completed, error := none }, s₃)

/-- The `except` result of `process_message` (lines 702-710): fixed
apology, the error detail, and no `message_count` key. -/
def error_result (platform session_id err : String) : TurnResult :=
  { response_type := "error",
    platform := platform,
    session_id := session_id,
    response := "Desculpe, ocorreu um erro interno. Nossa equipe foi notificada.",
    message_count := none,
    phone_submitted := none,
    ai_mode := none, gemini_available := none,
    fallback_step := none, fallback_completed := none,
    error := some err }

/-- `process_message` including its top-level `try/except`: a `fault`
value models an unexpected exception raised during the turn, which is
converted to the fixed error result (lines 702-710). -/
def process_message_with_fault (flow : Flow) (ai : AIOutcome) (whatsapp_success : Bool)
    (fault : Option String) (message session_id platform : String)
    (stored : Option Session) (phone_number : Option String) : TurnResult :=
  match fault with
  | some err => error_result platform session_id err
  | none =>
    (process_message flow ai whatsapp_success message session_id platform
      stored phone_number).1

/-- The quota indicator list exactly as the specification words it
(spec §4.3 / claim C8): the code's list without `ResourceExhausted`.
Kept separate so it can be compared with `quota_indicators`. -/
def claimed_quota_indicators : List String :=
  ["429", "quota", "rate limit", "exceeded",
   "billing", "plan", "free tier", "requests per day"]

/-- A fresh session as `_get_or_create_session` builds it for
session id `"s"` on platform `"web"`. -/
def freshSession : Session :=
  { session_id := "s",
    platform := "web",
    lead_data := [],
    message_count := 0,
    fallback_step := none,
    phone_submitted := false,
    gemini_available := true,
    fallback_completed := false,
    phone_number := none,
    phone_formatted := none,
    last_message := none,
    last_response := none }

/-- A flow with unique but non-contiguous step ids 1 and 3. -/
def flow_skip_ids : Flow :=
  { steps := [{ id := 1, question := "Q1" }, { id := 3, question := "Q3" }],
    completion_message := none }

/-- A flow whose lowest step id is 2, not 1. -/
def flow_lowest_two : Flow :=
  { steps := [{ id := 2, question := "Q2" }],
    completion_message := none }

/-- A flow whose only step has an empty question string. -/
def flow_empty_question : Flow :=
  { steps := [{ id := 1, question := "" }],
    completion_message := none }

/-- A session in fallback mode at step 1 whose step-1 answer is already
stored in `lead_data`. -/
def session_step1_answered : Session :=
  { freshSession with
      fallback_step := some 1,
      lead_data := [("step_1", "Ana Maria")] }

/-- A session whose per-session AI flag is off. -/
def session_unavailable : Session :=
  { freshSession with gemini_available := false }

/-- A session that has completed the fallback flow, with seven prior
messages and no phone yet. -/
def session_completed7 : Session :=
  { freshSession with
      fallback_completed := true,
      message_count := 7,
      lead_data := [("step_1", "Ana Maria")] }

/-- A flow with unique step ids 2 and 4; its first (lowest-id) step is
the step with id 2. -/
def flow_ids_two_four : Flow :=
  { steps := [{ id := 2, question := "Q2" }, { id := 4, question := "Q4" }],
    completion_message := none }

/-- A session whose fallback is active at the stale step id 3, an id
not present in `flow_ids_two_four`. -/
def session_stale_step3 : Session :=
  { freshSession with fallback_step := some 3 }

/-! ## Helper lemmas -/

theorem mem_insertByIdLe {a x : FlowStep} {l : List FlowStep} :
    a ∈ insertByIdLe x l ↔ a = x ∨ a ∈ l := by
  induction l with
  | nil => simp [insertByIdLe]
  | cons y ys ih =>
    simp only [insertByIdLe]
    split
    · simp [List.mem_cons]
    · simp only [List.mem_cons, ih]
      tauto

theorem mem_foldl_insertByIdLe {a : FlowStep} :
    ∀ (l acc : List FlowStep),
      a ∈ l.foldl (fun acc x => insertByIdLe x acc) acc ↔ a ∈ acc ∨ a ∈ l := by
  intro l
  induction l with
  | nil => intro acc; simp
  | cons x xs ih =>
    intro acc
    simp only [List.foldl_cons, ih, mem_insertByIdLe, List.mem_cons]
    tauto

theorem mem_sortStepsById {a : FlowStep} {l : List FlowStep} :
    a ∈ sortStepsById l ↔ a ∈ l := by
  simp [sortStepsById, mem_foldl_insertByIdLe]

theorem findStep_mem {steps : List FlowStep} {i : Nat} {st : FlowStep}
    (h : findStep steps i = some st) : st ∈ steps :=
  List.mem_of_find?_eq_some h

theorem findStep_id {steps : List FlowStep} {i : Nat} {st : FlowStep}
    (h : findStep steps i = some st) : st.id = i := by
  have := List.find?_some h
  exact of_decide_eq_true this

theorem findStep_sort_none_iff {l : List FlowStep} {i : Nat} :
    findStep (sortStepsById l) i = none ↔ ∀ st ∈ l, st.id ≠ i := by
  unfold findStep
  rw [List.find?_eq_none]
  constructor
  · intro h st hst
    have := h st (mem_sortStepsById.mpr hst)
    simpa using this
  · intro h st hst
    have := h st (mem_sortStepsById.mp hst)
    simpa using this

theorem findStep_sort_exists {l : List FlowStep} {i : Nat}
    (h : l.any (fun st => decide (st.id = i)) = true) :
    ∃ st, findStep (sortStepsById l) i = some st := by
  rcases hft : findStep (sortStepsById l) i with _ | st
  · exfalso
    rw [findStep_sort_none_iff] at hft
    rw [List.any_eq_true] at h
    obtain ⟨st, hmem, hid⟩ := h
    exact hft st hmem (of_decide_eq_true hid)
  · exact ⟨st, rfl⟩

theorem string_append_ne_empty_left {a : String} (b : String) (h : a ≠ "") :
    a ++ b ≠ "" := by
  intro hab
  apply h
  have hd : (a ++ b).data = ("" : String).data := by rw [hab]
  rw [String.data_append] at hd
  have hnil : a.data ++ b.data = [] := hd
  have : a.data = [] := (List.append_eq_nil.mp hnil).1
  exact String.ext_iff.mpr this

theorem ne_empty_of_pyStrip_ne_empty {s : String} (h : pyStrip s ≠ "") : s ≠ "" := by
  intro hs
  apply h
  rw [hs]
  decide

theorem get_fallback_gemini_frame (flow : Flow) (session : Session) (message : String) :
    (get_fallback_response flow session message).2.gemini_available
      = session.gemini_available := by
  unfold get_fallback_response activate_fallback reset_to_first handle_current_step
    advance_step
  dsimp only
  repeat' (first | rfl | (split <;> (try dsimp only)))

theorem get_fallback_mc_frame (flow : Flow) (session : Session) (message : String) :
    (get_fallback_response flow session message).2.message_count
      = session.message_count := by
  unfold get_fallback_response activate_fallback reset_to_first handle_current_step
    advance_step
  dsimp only
  repeat' (first | rfl | (split <;> (try dsimp only)))

theorem handle_phone_mc_frame (flow : Flow) (w : Bool) (m : String) (session : Session) :
    (handle_phone_collection flow w m session).2.message_count
      = session.message_count := by
  unfold handle_phone_collection
  dsimp only
  repeat' (first | rfl | (split <;> (try dsimp only)))

theorem handle_phone_gemini_frame (flow : Flow) (w : Bool) (m : String) (session : Session) :
    (handle_phone_collection flow w m session).2.gemini_available
      = session.gemini_available := by
  unfold handle_phone_collection
  dsimp only
  repeat' (first | rfl | (split <;> (try dsimp only)))

theorem attempt_unavailable {outcome : AIOutcome} {session : Session}
    (h : session.gemini_available = false) :
    attempt_gemini_response outcome session = (none, session) := by
  unfold attempt_gemini_response
  simp [h]

theorem get_fallback_at_current {flow : Flow} {session : Session} {message : String}
    {s : Nat} {cur : FlowStep}
    (hne : flow.steps.isEmpty = false)
    (hfs : session.fallback_step = some s)
    (hfind : findStep (sortStepsById flow.steps) s = some cur) :
    get_fallback_response flow session message
      = handle_current_step (sortStepsById flow.steps) s cur session message := by
  unfold get_fallback_response
  simp only [hne, Bool.false_eq_true, if_false, hfs, hfind]

/-! ## Claim theorems -/

/-- C10: when fallback is already active at an existing step and the
incoming message is empty or whitespace-only, the engine returns the
current step's question and leaves the session (so `fallback_step`,
`lead_data`, `fallback_completed`) entirely unchanged. -/
theorem C10_empty_message_returns_current_question
    (flow : Flow) (session : Session) (message : String) (s : Nat) (cur : FlowStep)
    (hne : flow.steps.isEmpty = false)
    (hfs : session.fallback_step = some s)
    (hfind : findStep (sortStepsById flow.steps) s = some cur)
    (hnc : session.fallback_completed = false)
    (hmsg : pyStrip message = "") :
    get_fallback_response flow session message = (cur.question, session) := by
  rw [get_fallback_at_current hne hfs hfind]
  unfold handle_current_step
  rw [if_neg (by simp [hmsg])]

/-- C10 witness: a concrete run of the theorem on the default flow at
step 2 with a whitespace-only message. -/
theorem C10_empty_message_witness :
    get_fallback_response default_flow { freshSession with fallback_step := some 2 } " "
      = ("Em qual área do direito você precisa de ajuda?",
         { freshSession with fallback_step := some 2 }) :=
  C10_empty_message_returns_current_question default_flow
    { freshSession with fallback_step := some 2 } " " 2
    { id := 2, question := "Em qual área do direito você precisa de ajuda?" }
    rfl rfl rfl rfl rfl

/-- C6 (amended): if `lead_data` already has an entry for the current
step and the message is non-empty after trimming whitespace, validation
is skipped, the stored answer is unchanged, and the engine proceeds
directly to the advancement logic. -/
theorem C6_stored_answer_skips_validation
    (flow : Flow) (session : Session) (message : String) (s : Nat) (cur : FlowStep)
    (v : String)
    (hne : flow.steps.isEmpty = false)
    (hfs : session.fallback_step = some s)
    (hfind : findStep (sortStepsById flow.steps) s = some cur)
    (hmsg : pyStrip message ≠ "")
    (hstored : ldLookup (step_key s) session.lead_data = some v) :
    get_fallback_response flow session message
      = advance_step (sortStepsById flow.steps) s session
    ∧ (get_fallback_response flow session message).2.lead_data = session.lead_data := by
  have hmain : get_fallback_response flow session message
      = advance_step (sortStepsById flow.steps) s session := by
    rw [get_fallback_at_current hne hfs hfind]
    unfold handle_current_step
    rw [if_pos hmsg]
    simp only [hstored]
  refine ⟨hmain, ?_⟩
  rw [hmain]
  unfold advance_step
  dsimp only
  split <;> rfl

/-- C6 witness: resubmitting after step 1 is already answered, with a
non-whitespace message, advances without touching `lead_data`. -/
theorem C6_stored_answer_witness :
    get_fallback_response default_flow session_step1_answered "qualquer coisa"
      = advance_step (sortStepsById default_flow.steps) 1 session_step1_answered
    ∧ (get_fallback_response default_flow session_step1_answered
        "qualquer coisa").2.lead_data = session_step1_answered.lead_data :=
  C6_stored_answer_skips_validation default_flow session_step1_answered
    "qualquer coisa" 1 { id := 1, question := "Qual é o seu nome completo?" }
    "Ana Maria" rfl rfl rfl (by decide) rfl

/-- C6 counterexample: the claim as stated quantifies over every
non-empty message, but for the non-empty whitespace message `" "` the
engine does not proceed to advancement: it returns the current step's
question and leaves `fallback_step` at 1 (advancement would have
returned step 2's question and set `fallback_step` to 2). -/
theorem C6_whitespace_message_does_not_advance :
    (" " : String) ≠ ""
    ∧ ldLookup (step_key 1) session_step1_answered.lead_data = some "Ana Maria"
    ∧ get_fallback_response default_flow session_step1_answered " "
        = ("Qual é o seu nome completo?", session_step1_answered)
    ∧ (get_fallback_response default_flow session_step1_answered " ").1
        ≠ "Em qual área do direito você precisa de ajuda?"
    ∧ (get_fallback_response default_flow session_step1_answered " ").2.fallback_step
        ≠ some 2 :=
  ⟨by decide, rfl, rfl, by decide, by decide⟩

/-- C5 (amended): once fallback is active at step `s`, the step is
monotonically non-decreasing over a turn whenever `s` exists in the
loaded flow (or the flow is empty, in which case nothing changes); the
single exception is the error-recovery reset when `s` is not found
among the flow's step ids, which sets the literal step id 1 — not the
flow's first (lowest-id) step — and can therefore decrease the step. -/
theorem C5_fallback_step_monotone
    (flow : Flow) (session : Session) (message : String) (s : Nat)
    (hfs : session.fallback_step = some s) :
    (flow.steps.any (fun st => decide (st.id = s)) = true →
       ∃ t, (get_fallback_response flow session message).2.fallback_step = some t ∧ s ≤ t)
    ∧ (flow.steps.isEmpty = false →
       flow.steps.any (fun st => decide (st.id = s)) = false →
       (get_fallback_response flow session message).2.fallback_step = some 1)
    ∧ (flow.steps.isEmpty = true →
       (get_fallback_response flow session message).2.fallback_step = some s) := by
  refine ⟨?_, ?_, ?_⟩
  · intro hany
    have hne : flow.steps.isEmpty = false := by
      cases hsteps : flow.steps with
      | nil => rw [hsteps] at hany; simp at hany
      | cons a l => simp [hsteps]
    obtain ⟨cur, hfind⟩ := findStep_sort_exists hany
    rw [get_fallback_at_current hne hfs hfind]
    unfold handle_current_step advance_step
    dsimp only
    split
    · split
      · split
        · exact ⟨s + 1, rfl, Nat.le_succ s⟩
        · exact ⟨s, by simpa using hfs, Nat.le_refl s⟩
      · split
        · exact ⟨s, by simpa using hfs, Nat.le_refl s⟩
        · split
          · exact ⟨s + 1, rfl, Nat.le_succ s⟩
          · exact ⟨s, by simpa using hfs, Nat.le_refl s⟩
    · exact ⟨s, by simpa using hfs, Nat.le_refl s⟩
  · intro hne hnone
    have hfn : findStep (sortStepsById flow.steps) s = none := by
      rw [findStep_sort_none_iff]
      intro st hst hid
      have : flow.steps.any (fun st => decide (st.id = s)) = true :=
        List.any_eq_true.mpr ⟨st, hst, by simp [hid]⟩
      rw [this] at hnone
      exact Bool.noConfusion hnone
    unfold get_fallback_response
    simp only [hne, Bool.false_eq_true, if_false, hfs, hfn]
    unfold reset_to_first
    dsimp only
    split <;> rfl
  · intro he
    unfold get_fallback_response
    simp only [he, if_true]
    exact hfs

/-- C5 witness: on the default flow at step 2 the step after a turn is
some `t ≥ 2`. -/
theorem C5_fallback_step_monotone_witness :
    ∃ t, (get_fallback_response default_flow
        { freshSession with fallback_step := some 2 } "").2.fallback_step = some t
      ∧ 2 ≤ t :=
  (C5_fallback_step_monotone default_flow
    { freshSession with fallback_step := some 2 } "" 2 rfl).1 (by decide)

/-- C5 counterexample: on the flow with ids 2 and 4 and a stale
`fallback_step` of 3 (an id absent from the flow), error recovery
resets the step to the literal id 1 — a decrease from 3, and not the
flow's first (lowest-id) step, which is 2 — refuting the claim's
exception clause that the reset goes to the first step. -/
theorem C5_reset_goes_to_literal_one :
    (get_fallback_response flow_ids_two_four session_stale_step3 "oi").2.fallback_step
        = some 1
    ∧ (get_fallback_response flow_ids_two_four session_stale_step3 "oi").1
        = hardcodedStep1Question
    ∧ flow_ids_two_four.steps.all (fun st => decide (2 ≤ st.id)) = true
    ∧ flow_ids_two_four.steps.any (fun st => decide (st.id = 3)) = false
    ∧ session_stale_step3.fallback_step = some 3
    ∧ ¬(3 ≤ 1) :=
  ⟨rfl, rfl, by decide, by decide, rfl, by decide⟩

/-- C4 (amended): on first activation the engine always sets
`fallback_step` to 1 (not to the lowest step id of the flow), resets
`lead_data` to empty (so no answer is consumed), persists, and returns
the question of the step with id 1 when one exists, else the hardcoded
default name question. -/
theorem C4_activation_sets_step_one
    (flow : Flow) (session : Session) (message : String)
    (hne : flow.steps.isEmpty = false)
    (hfs : session.fallback_step = none) :
    (get_fallback_response flow session message).2.fallback_step = some 1
    ∧ (get_fallback_response flow session message).2.lead_data = []
    ∧ (∀ st, findStep (sortStepsById flow.steps) 1 = some st →
        (get_fallback_response flow session message).1 = st.question)
    ∧ (findStep (sortStepsById flow.steps) 1 = none →
        (get_fallback_response flow session message).1 = hardcodedStep1Question) := by
  have hred : get_fallback_response flow session message
      = activate_fallback (sortStepsById flow.steps) session := by
    unfold get_fallback_response
    simp only [hne, Bool.false_eq_true, if_false, hfs]
  rw [hred]
  unfold activate_fallback
  dsimp only
  refine ⟨?_, ?_, ?_, ?_⟩
  · split <;> rfl
  · split <;> rfl
  · intro st hst; simp only [hst]
  · intro hn; simp only [hn]

/-- C4 witness: activation on the default flow returns the id-1
question and initialises the session. -/
theorem C4_activation_witness :
    (get_fallback_response default_flow freshSession "olá").2.fallback_step = some 1
    ∧ (get_fallback_response default_flow freshSession "olá").2.lead_data = []
    ∧ (get_fallback_response default_flow freshSession "olá").1
        = "Qual é o seu nome completo?" :=
  ⟨(C4_activation_sets_step_one default_flow freshSession "olá" rfl rfl).1,
   (C4_activation_sets_step_one default_flow freshSession "olá" rfl rfl).2.1,
   (C4_activation_sets_step_one default_flow freshSession "olá" rfl rfl).2.2.1
     { id := 1, question := "Qual é o seu nome completo?" } rfl⟩

/-- C4 counterexample: for a flow whose lowest step id is 2, activation
sets `fallback_step` to 1 — an id not present in the flow — and returns
the hardcoded default question instead of step 2's question, refuting
the claim that the lowest step id of the flow is used. -/
theorem C4_activation_ignores_lowest_id :
    (get_fallback_response flow_lowest_two freshSession "oi").2.fallback_step = some 1
    ∧ (get_fallback_response flow_lowest_two freshSession "oi").1 = hardcodedStep1Question
    ∧ (get_fallback_response flow_lowest_two freshSession "oi").1 ≠ "Q2"
    ∧ flow_lowest_two.steps.all (fun st => decide (2 ≤ st.id)) = true
    ∧ freshSession.fallback_step = none :=
  ⟨rfl, rfl, by decide, by decide, rfl⟩

/-- C1 (amended): after a valid answer for the current step `s` is
persisted (or an already-stored answer for `s` is detected), the engine
looks up the step with id exactly `s + 1`: if it exists, `fallback_step`
is set to `s + 1` and its question is returned; otherwise
`fallback_completed` is set and the fixed phone-request prompt is
returned, even when the flow has steps with ids greater than `s + 1`. -/
theorem C1_advance_to_successor_id
    (flow : Flow) (session : Session) (message : String) (s : Nat) (cur : FlowStep)
    (hne : flow.steps.isEmpty = false)
    (hfs : session.fallback_step = some s)
    (hfind : findStep (sortStepsById flow.steps) s = some cur)
    (hmsg : pyStrip message ≠ "")
    (hok : ldLookup (step_key s) session.lead_data ≠ none
           ∨ should_advance_step (validate_and_normalize_answer message s) s = true) :
    (∀ nst, findStep (sortStepsById flow.steps) (s + 1) = some nst →
       (get_fallback_response flow session message).1 = nst.question
       ∧ (get_fallback_response flow session message).2.fallback_step = some (s + 1))
    ∧ (findStep (sortStepsById flow.steps) (s + 1) = none →
       (get_fallback_response flow session message).1 = phoneRequestPrompt
       ∧ (get_fallback_response flow session message).2.fallback_completed = true) := by
  rw [get_fallback_at_current hne hfs hfind]
  unfold handle_current_step
  rw [if_pos hmsg]
  rcases hld : ldLookup (step_key s) session.lead_data with _ | v
  · have hsa : should_advance_step (validate_and_normalize_answer message s) s = true := by
      rcases hok with h | h
      · exact absurd hld h
      · exact h
    simp only [hld, hsa, Bool.not_true, Bool.false_eq_true, if_false]
    unfold advance_step
    dsimp only
    constructor
    · intro nst hnst
      simp [hnst]
    · intro hnone
      simp [hnone]
  · simp only [hld]
    unfold advance_step
    dsimp only
    constructor
    · intro nst hnst
      simp [hnst]
    · intro hnone
      simp [hnone]

/-- C1 witness: a valid step-1 answer on the default flow advances to
the step with id 2 and emits its question. -/
theorem C1_advance_witness :
    (get_fallback_response default_flow { freshSession with fallback_step := some 1 }
        "Ana Maria").1 = "Em qual área do direito você precisa de ajuda?"
    ∧ (get_fallback_response default_flow { freshSession with fallback_step := some 1 }
        "Ana Maria").2.fallback_step = some 2 :=
  (C1_advance_to_successor_id default_flow
      { freshSession with fallback_step := some 1 } "Ana Maria" 1
      { id := 1, question := "Qual é o seu nome completo?" }
      rfl rfl rfl (by decide) (Or.inr (by decide))).1
    { id := 2, question := "Em qual área do direito você precisa de ajuda?" } rfl

/-- C1 counterexample: on a flow with unique ids 1 and 3, an
already-answered step 1 with a non-empty message completes the flow and
emits the phone prompt, although a step with id greater than 1 (id 3,
question `"Q3"`) exists — the engine does not advance to the least id
strictly greater than `s`, refuting the claim. -/
theorem C1_next_step_skips_noncontiguous_ids :
    (get_fallback_response flow_skip_ids session_step1_answered "ok").1
        = phoneRequestPrompt
    ∧ (get_fallback_response flow_skip_ids session_step1_answered "ok").2.fallback_completed
        = true
    ∧ (get_fallback_response flow_skip_ids session_step1_answered "ok").1 ≠ "Q3"
    ∧ flow_skip_ids.steps.any (fun st => decide (1 < st.id)) = true
    ∧ ldLookup (step_key 1) session_step1_answered.lead_data = some "Ana Maria" :=
  ⟨rfl, rfl, by decide, by decide, rfl⟩

/-- C7: phone normalization is total on the raw string: after keeping
only digits it rejects exactly when the digit count is below 10 or
above 13; with 10 digits it yields `"55"` + first two digits + `"9"` +
the remaining eight; with 11 digits it prepends `"55"`; with 12 or 13
digits starting with `"55"` it passes the digits through; otherwise it
prepends `"55"`. -/
theorem C7_phone_normalization_cases (raw : String) :
    (normalize_phone raw = none ↔
      ((digitsOf raw).length < 10 ∨ 13 < (digitsOf raw).length))
    ∧ ((digitsOf raw).length = 10 →
        normalize_phone raw =
          some ("55" ++ pyTake (digitsOf raw) 2 ++ "9" ++ pyDrop (digitsOf raw) 2))
    ∧ ((digitsOf raw).length = 11 →
        normalize_phone raw = some ("55" ++ digitsOf raw))
    ∧ (((digitsOf raw).length = 12 ∨ (digitsOf raw).length = 13) →
        pyStartsWith (digitsOf raw) "55" = true →
        normalize_phone raw = some (digitsOf raw))
    ∧ (((digitsOf raw).length = 12 ∨ (digitsOf raw).length = 13) →
        pyStartsWith (digitsOf raw) "55" = false →
        normalize_phone raw = some ("55" ++ digitsOf raw)) := by
  unfold normalize_phone phone_formatted_of
  dsimp only
  refine ⟨?_, ?_, ?_, ?_, ?_⟩
  · split
    · simp_all
    · simp_all
  · intro h10
    rw [if_neg (by simp [h10]), if_pos (by simp [h10])]
  · intro h11
    rw [if_neg (by simp [h11]), if_neg (by simp [h11]), if_pos (by simp [h11])]
  · intro h1213 h55
    rcases h1213 with h | h <;>
      rw [if_neg (by simp [h]), if_neg (by simp [h]), if_neg (by simp [h]),
        if_pos h55]
  · intro h1213 h55
    rcases h1213 with h | h <;>
      rw [if_neg (by simp [h]), if_neg (by simp [h]), if_neg (by simp [h]),
        if_neg (by simp [h55])]

/-- C7 witness: concrete runs of the normalization cases: an 11-digit
formatted number, a 10-digit number gaining the mobile `9`, and a
too-short rejection. -/
theorem C7_phone_normalization_witness :
    normalize_phone "(11) 98765-4321" = some "5511987654321"
    ∧ normalize_phone "1198765432" = some "5511998765432"
    ∧ normalize_phone "123" = none :=
  ⟨(C7_phone_normalization_cases "(11) 98765-4321").2.2.1 rfl,
   (C7_phone_normalization_cases "1198765432").2.1 rfl,
   (C7_phone_normalization_cases "123").1.mpr (by decide)⟩

/-- C8 (amended): an AI failure is classified as a quota error exactly
when the error text contains, case-insensitively, one of the NINE code
indicators — the eight listed in the claim plus `"ResourceExhausted"`. -/
theorem C8_quota_iff_indicator (e : String) :
    is_quota_error e = true ↔
      (containsSub "429" (pyLower e) = true ∨
       containsSub "quota" (pyLower e) = true ∨
       containsSub "rate limit" (pyLower e) = true ∨
       containsSub "exceeded" (pyLower e) = true ∨
       containsSub "resourceexhausted" (pyLower e) = true ∨
       containsSub "billing" (pyLower e) = true ∨
       containsSub "plan" (pyLower e) = true ∨
       containsSub "free tier" (pyLower e) = true ∨
       containsSub "requests per day" (pyLower e) = true) := by
  have h1 : pyLower "429" = "429" := by decide
  have h2 : pyLower "quota" = "quota" := by decide
  have h3 : pyLower "rate limit" = "rate limit" := by decide
  have h4 : pyLower "exceeded" = "exceeded" := by decide
  have h5 : pyLower "ResourceExhausted" = "resourceexhausted" := by decide
  have h6 : pyLower "billing" = "billing" := by decide
  have h7 : pyLower "plan" = "plan" := by decide
  have h8 : pyLower "free tier" = "free tier" := by decide
  have h9 : pyLower "requests per day" = "requests per day" := by decide
  simp only [is_quota_error, quota_indicators, List.any_cons, List.any_nil,
    h1, h2, h3, h4, h5, h6, h7, h8, h9, Bool.or_eq_true, Bool.false_eq_true,
    or_false]

/-- C8 counterexample: the error text `"ResourceExhausted"` is
classified as a quota error by the code, yet it contains none of the
eight indicators that the claim declares to be exhaustive — refuting
the claimed if-and-only-if. -/
theorem C8_resource_exhausted_not_in_claimed_list :
    is_quota_error "ResourceExhausted" = true
    ∧ claimed_quota_indicators.any
        (fun ind => containsSub (pyLower ind) (pyLower "ResourceExhausted")) = false := by
  constructor <;> decide

/-- C2: once a session's `gemini_available` flag is false it never
recovers, even when the AI backend would return a valid (non-empty,
non-quota) response on the next processed message: the guard at line
198 of `_attempt_gemini_response` returns before calling the backend,
so the restore branch at lines 234-239 is unreachable. This proves the
negation of the claim; the claim matches the code's evident intent
(its dead restore branch and spec §4.3), so the code is at fault. -/
theorem C2_gemini_flag_never_recovers (flow : Flow) (resp : String)
    (whatsapp_success : Bool) (message session_id platform : String)
    (session : Session) (phone_number : Option String)
    (hflag : session.gemini_available = false)
    (hvalid : pyStrip resp ≠ "")
    (hnoquota : is_quota_error resp = false) :
    (process_message flow (.success resp) whatsapp_success message session_id platform
        (some session) phone_number).2.gemini_available = false
    ∧ (process_message flow (.success resp) whatsapp_success message session_id platform
        (some session) phone_number).1.response_type ≠ "ai_intelligent" := by
  have hs0 : (get_or_create_session (some session) session_id platform
      phone_number).gemini_available = false := by
    unfold get_or_create_session
    cases phone_number <;> simpa using hflag
  unfold process_message
  dsimp only
  split
  · constructor
    · rw [handle_phone_gemini_frame]
      exact hs0
    · dsimp only
      decide
  · rw [attempt_unavailable hs0]
    dsimp only
    constructor
    · rw [show ({ (get_fallback_response flow (get_or_create_session (some session)
        session_id platform phone_number) message).2 with
          last_message := some message,
          last_response := some (get_fallback_response flow (get_or_create_session
            (some session) session_id platform phone_number) message).1,
          message_count := (get_fallback_response flow (get_or_create_session
            (some session) session_id platform phone_number) message).2.message_count
            + 1 } : Session).gemini_available
        = (get_fallback_response flow (get_or_create_session (some session)
            session_id platform phone_number) message).2.gemini_available from rfl]
      rw [get_fallback_gemini_frame]
      exact hs0
    · dsimp only
      decide

/-- C2 witness: a session with the flag off and a backend that would
answer validly still ends the turn with the flag off and a non-AI
response. -/
theorem C2_gemini_flag_never_recovers_witness :
    (process_message default_flow (.success "Olá, posso ajudar") true "oi" "s" "web"
        (some session_unavailable) none).2.gemini_available = false
    ∧ (process_message default_flow (.success "Olá, posso ajudar") true "oi" "s" "web"
        (some session_unavailable) none).1.response_type ≠ "ai_intelligent" :=
  C2_gemini_flag_never_recovers default_flow "Olá, posso ajudar" true "oi" "s" "web"
    session_unavailable none rfl (by decide) (by decide)

theorem get_or_create_some_fields (session : Session) (sid pf : String)
    (pn : Option String) :
    (get_or_create_session (some session) sid pf pn).fallback_completed
        = session.fallback_completed
    ∧ (get_or_create_session (some session) sid pf pn).phone_submitted
        = session.phone_submitted
    ∧ (get_or_create_session (some session) sid pf pn).message_count
        = session.message_count
    ∧ (get_or_create_session (some session) sid pf pn).gemini_available
        = session.gemini_available := by
  unfold get_or_create_session
  cases pn <;> exact ⟨rfl, rfl, rfl, rfl⟩

theorem attempt_success_valid {resp : String} {session : Session}
    (hg : session.gemini_available = true) (hv : pyStrip resp ≠ "")
    (hq : is_quota_error resp = false) :
    attempt_gemini_response (.success resp) session = (some resp, session) := by
  unfold attempt_gemini_response
  simp [hg, hv, hq]

/-- C9: on the phone-collection routing path of `process_message`
(completed fallback, phone not yet submitted, message with 10-13
digits), the persisted session's `message_count` is left unchanged by
the turn while the returned result reports the stored count plus one —
unlike the AI-success and fallback paths, which increment and persist
it. -/
theorem C9_phone_path_message_count :
    (∀ (flow : Flow) (ai : AIOutcome) (w : Bool) (message sid pf : String)
        (session : Session) (pn : Option String),
        session.fallback_completed = true →
        session.phone_submitted = false →
        is_phone_number message = true →
        (process_message flow ai w message sid pf (some session) pn).2.message_count
            = session.message_count
        ∧ (process_message flow ai w message sid pf (some session) pn).1.message_count
            = some (session.message_count + 1)
        ∧ (process_message flow ai w message sid pf (some session) pn).1.response_type
            = "phone_collected_fallback")
    ∧ (∀ (flow : Flow) (resp : String) (w : Bool) (message sid pf : String)
        (session : Session) (pn : Option String),
        (session.fallback_completed && !session.phone_submitted
          && is_phone_number message) = false →
        session.gemini_available = true →
        pyStrip resp ≠ "" →
        is_quota_error resp = false →
        (process_message flow (.success resp) w message sid pf (some session) pn).2.message_count
            = session.message_count + 1
        ∧ (process_message flow (.success resp) w message sid pf
            (some session) pn).1.message_count = some (session.message_count + 1))
    ∧ (∀ (flow : Flow) (ai : AIOutcome) (w : Bool) (message sid pf : String)
        (session : Session) (pn : Option String),
        (session.fallback_completed && !session.phone_submitted
          && is_phone_number message) = false →
        session.gemini_available = false →
        (process_message flow ai w message sid pf (some session) pn).2.message_count
            = session.message_count + 1
        ∧ (process_message flow ai w message sid pf (some session) pn).1.message_count
            = some (session.message_count + 1)) := by
  refine ⟨?_, ?_, ?_⟩
  · intro flow ai w message sid pf session pn h1 h2 h3
    obtain ⟨hfc, hps, hmc, hga⟩ := get_or_create_some_fields session sid pf pn
    unfold process_message
    dsimp only
    rw [if_pos (by rw [hfc, hps, h1, h2, h3]; rfl)]
    dsimp only
    refine ⟨?_, ?_, rfl⟩
    · rw [handle_phone_mc_frame]
      exact hmc
    · rw [handle_phone_mc_frame, hmc]
  · intro flow resp w message sid pf session pn hroute hg hv hq
    obtain ⟨hfc, hps, hmc, hga⟩ := get_or_create_some_fields session sid pf pn
    unfold process_message
    dsimp only
    rw [if_neg (by rw [hfc, hps]; rw [hroute]; exact Bool.noConfusion)]
    rw [attempt_success_valid (hga.trans hg) hv hq]
    dsimp only
    exact ⟨by rw [hmc], by rw [hmc]⟩
  · intro flow ai w message sid pf session pn hroute hg
    obtain ⟨hfc, hps, hmc, hga⟩ := get_or_create_some_fields session sid pf pn
    unfold process_message
    dsimp only
    rw [if_neg (by rw [hfc, hps]; rw [hroute]; exact Bool.noConfusion)]
    rw [attempt_unavailable (hga.trans hg)]
    dsimp only
    constructor
    · show (get_fallback_response flow (get_or_create_session (some session) sid pf pn)
          message).2.message_count + 1 = session.message_count + 1
      rw [get_fallback_mc_frame, hmc]
    · show some ((get_fallback_response flow (get_or_create_session (some session)
          sid pf pn) message).2.message_count + 1) = some (session.message_count + 1)
      rw [get_fallback_mc_frame, hmc]

theorem get_validation_message_ne_empty (i : Nat) : get_validation_message i ≠ "" := by
  unfold get_validation_message
  repeat' split
  all_goals decide

theorem phone_response_ne_empty (flow : Flow) (w : Bool) (m : String)
    (session : Session) :
    (handle_phone_collection flow w m session).1 ≠ "" := by
  unfold handle_phone_collection
  dsimp only
  split
  · dsimp only
    decide
  · unfold final_phone_message
    dsimp only
    repeat' apply string_append_ne_empty_left
    decide

theorem advance_response_ne_empty (flow : Flow) (s : Nat) (sess : Session)
    (hq : ∀ st ∈ flow.steps, st.question ≠ "") :
    (advance_step (sortStepsById flow.steps) s sess).1 ≠ "" := by
  unfold advance_step
  dsimp only
  rcases hn : findStep (sortStepsById flow.steps) (s + 1) with _ | nst
  · simp only [hn]
    decide
  · simp only [hn]
    exact hq nst (mem_sortStepsById.mp (findStep_mem hn))

theorem fallback_response_ne_empty (flow : Flow) (session : Session) (message : String)
    (hq : ∀ st ∈ flow.steps, st.question ≠ "") :
    (get_fallback_response flow session message).1 ≠ "" := by
  have hmem : ∀ {i : Nat} {st : FlowStep},
      findStep (sortStepsById flow.steps) i = some st → st.question ≠ "" := by
    intro i st h
    exact hq st (mem_sortStepsById.mp (findStep_mem h))
  rcases he : flow.steps.isEmpty with _ | _
  · rcases hfs : session.fallback_step with _ | s
    · have hred : get_fallback_response flow session message
          = activate_fallback (sortStepsById flow.steps) session := by
        unfold get_fallback_response
        simp only [he, Bool.false_eq_true, if_false, hfs]
      rw [hred]
      unfold activate_fallback
      dsimp only
      rcases h1 : findStep (sortStepsById flow.steps) 1 with _ | st
      · simp only [h1]
        decide
      · simp only [h1]
        exact hmem h1
    · rcases hc : findStep (sortStepsById flow.steps) s with _ | cur
      · have hred : get_fallback_response flow session message
            = reset_to_first (sortStepsById flow.steps) session := by
          unfold get_fallback_response
          simp only [he, Bool.false_eq_true, if_false, hfs, hc]
        rw [hred]
        unfold reset_to_first
        dsimp only
        rcases h1 : findStep (sortStepsById flow.steps) 1 with _ | st
        · simp only [h1]
          decide
        · simp only [h1]
          exact hmem h1
      · rw [get_fallback_at_current he hfs hc]
        unfold handle_current_step
        by_cases hm : pyStrip message ≠ ""
        · rw [if_pos hm]
          rcases hld : ldLookup (step_key s) session.lead_data with _ | v
          · simp only [hld]
            rcases hsa : should_advance_step (validate_and_normalize_answer message s) s
              with _ | _
            · simp only [hsa, Bool.not_false, if_true]
              apply string_append_ne_empty_left
              apply string_append_ne_empty_left
              exact get_validation_message_ne_empty s
            · simp only [hsa, Bool.not_true, Bool.false_eq_true, if_false]
              exact advance_response_ne_empty flow s _ hq
          · simp only [hld]
            exact advance_response_ne_empty flow s _ hq
        · rw [if_neg hm]
          exact hmem hc
  · unfold get_fallback_response
    rw [if_pos he]
    dsimp only
    decide

theorem attempt_some_pyStrip {outcome : AIOutcome} {session : Session} {r : String}
    (h : (attempt_gemini_response outcome session).1 = some r) : pyStrip r ≠ "" := by
  unfold attempt_gemini_response at h
  split at h
  · simp at h
  · cases outcome with
    | success resp =>
      dsimp only at h
      split at h
      case isTrue hcond =>
        rw [Bool.and_eq_true] at hcond
        obtain ⟨h1, h2⟩ := hcond
        have hne := of_decide_eq_true h1
        have hr : resp = r := by
          simpa using h
        rw [← hr]
        exact hne
      case isFalse => simp at h
    | timeout => simp at h
    | failure e => simp at h

/-- C3 (amended): every return path of `process_message` carries
`response_type`, `platform` and `session_id`; the AI-success, fallback
and phone-collection paths also carry `message_count`, and the response
is non-empty whenever every flow step question is non-empty; but the
caught-fault path omits `message_count` (its response is a fixed
non-empty apology). -/
theorem C3_result_shape (flow : Flow) (ai : AIOutcome) (w : Bool)
    (fault : Option String) (message session_id platform : String)
    (stored : Option Session) (pn : Option String) :
    ((process_message_with_fault flow ai w fault message session_id platform
        stored pn).platform = platform)
    ∧ ((process_message_with_fault flow ai w fault message session_id platform
        stored pn).session_id = session_id)
    ∧ (fault = none →
        ((process_message_with_fault flow ai w fault message session_id platform
          stored pn).message_count).isSome = true)
    ∧ (∀ e, fault = some e →
        (process_message_with_fault flow ai w fault message session_id platform
          stored pn).message_count = none
        ∧ (process_message_with_fault flow ai w fault message session_id platform
          stored pn).response_type = "error")
    ∧ ((∀ st ∈ flow.steps, st.question ≠ "") →
        (process_message_with_fault flow ai w fault message session_id platform
          stored pn).response ≠ "") := by
  rcases fault with _ | e
  · unfold process_message_with_fault process_message
    dsimp only
    split
    · refine ⟨rfl, rfl, fun _ => rfl, fun e he => Option.noConfusion he, fun hq => ?_⟩
      exact phone_response_ne_empty flow w message _
    · rcases hA : attempt_gemini_response ai
          (get_or_create_session stored session_id platform pn) with ⟨r?, s₁⟩
      rcases r? with _ | r
      · dsimp only
        refine ⟨rfl, rfl, fun _ => rfl, fun e he => Option.noConfusion he, fun hq => ?_⟩
        exact fallback_response_ne_empty flow s₁ message hq
      · dsimp only
        refine ⟨rfl, rfl, fun _ => rfl, fun e he => Option.noConfusion he, fun hq => ?_⟩
        have : (attempt_gemini_response ai
            (get_or_create_session stored session_id platform pn)).1 = some r := by
          rw [hA]
        exact ne_empty_of_pyStrip_ne_empty (attempt_some_pyStrip this)
  · unfold process_message_with_fault error_result
    dsimp only
    exact ⟨rfl, rfl, fun h => Option.noConfusion h,
      fun e' he => ⟨rfl, rfl⟩, fun _ => by decide⟩

/-- C9 witness: a completed session with seven messages keeps
`message_count = 7` persisted while reporting 8 on the phone path; the
AI-success and fallback paths persist the increment. -/
theorem C9_phone_path_message_count_witness :
    (process_message default_flow .timeout true "11987654321" "s" "web"
        (some session_completed7) none).2.message_count = 7
    ∧ (process_message default_flow .timeout true "11987654321" "s" "web"
        (some session_completed7) none).1.message_count = some 8
    ∧ (process_message default_flow (.success "Olá, tudo bem") true "oi" "s" "web"
        (some freshSession) none).2.message_count = 1
    ∧ (process_message default_flow .timeout true "oi" "s" "web"
        (some session_unavailable) none).2.message_count = 1 := by
  have h1 := C9_phone_path_message_count.1 default_flow .timeout true "11987654321"
    "s" "web" session_completed7 none rfl rfl (by decide)
  have h2 := C9_phone_path_message_count.2.1 default_flow "Olá, tudo bem" true "oi"
    "s" "web" freshSession none (by decide) rfl (by decide) (by decide)
  have h3 := C9_phone_path_message_count.2.2 default_flow .timeout true "oi" "s" "web"
    session_unavailable none (by decide) rfl
  exact ⟨h1.1, h1.2.1, h2.1, h3.1⟩

/-- C3 counterexample: the caught-fault turn result has no
`message_count` key, and a flow whose only step has an empty question
makes the fallback turn return an empty `response` — both refuting the
claim that every outcome carries all five keys with a non-empty
response. -/
theorem C3_error_path_omits_message_count :
    (process_message_with_fault default_flow .timeout true (some "boom") "oi" "s" "web"
        none none).message_count = none
    ∧ (process_message_with_fault flow_empty_question .timeout true none "oi" "s" "web"
        none none).response = "" :=
  ⟨rfl, rfl⟩

/-- C3 witness: concrete turns showing a present `message_count` and a
non-empty response on a normal turn, and the missing `message_count` on
a faulted turn. -/
theorem C3_result_shape_witness :
    ((process_message_with_fault default_flow .timeout true none "oi" "s" "web" none
        none).message_count).isSome = true
    ∧ (process_message_with_fault default_flow .timeout true none "oi" "s" "web" none
        none).response ≠ ""
    ∧ (process_message_with_fault default_flow .timeout true (some "x") "oi2" "s2" "web"
        none none).message_count = none :=
  ⟨(C3_result_shape default_flow .timeout true none "oi" "s" "web" none none).2.2.1 rfl,
   (C3_result_shape default_flow .timeout true none "oi" "s" "web" none
      none).2.2.2.2 (by decide),
   ((C3_result_shape default_flow .timeout true (some "x") "oi2" "s2" "web" none
      none).2.2.2.1 "x" rfl).1⟩

end Advocadia
